import Mathlib

/-!
Shallow embedding of the KServe model deployer step of the zenml repository
(`src/zenml/integrations/kserve/steps/kserve_deployer.py`) and proofs about it.

The step's own logic (`kserve_model_deployer_step` and its inner function
`prepare_service_config`) is translated directly from the source.  The
collaborators it calls — the model deployer's `find_model_server` and
`deploy_model`, and the deployment service's `is_running` / `start` — are not
part of the source excerpt; they are modelled from the specification and marked
as such in their doc comments.  File-system effects (`fileio.makedirs`,
`fileio.copy`, `io_utils.copy_dir`) are recorded as an explicit operation
trace, and `fileio.exists` is evaluated against a list of existing paths.
-/

/-- Shallow embedding of `os.path.join` for the relative second segments used
in this file (the second argument is never absolute in the source). -/
def osPathJoin (a b : String) : String := a ++ "/" ++ b

/-- Lifecycle state of a deployment service.  Modelled from the spec:
`state ∈ {Absent, Starting, Running, Stopped, Failed}` (the service class
itself is outside the source excerpt). -/
inductive ServiceState
  | Absent
  | Starting
  | Running
  | Stopped
  | Failed
deriving DecidableEq

/-- The fields of `KServeDeploymentConfig` read or written by the deployer
step: the model URI, model name, predictor flavor and the pipeline runtime
information the step fills in. -/
structure KServeDeploymentConfig where
  model_uri : String
  model_name : String
  predictor : String
  pipeline_name : String
  pipeline_run_id : String
  pipeline_step_name : String
deriving DecidableEq

/-- `KServeDeployerStepConfig`: the step configuration, holding the service
configuration and the start/stop timeout. -/
structure KServeDeployerStepConfig where
  service_config : KServeDeploymentConfig
  timeout : Nat
deriving DecidableEq

/-- A deployment service handle.  Modelled from the spec: the registry mirrors
`{identity (inside config), served uri (config.model_uri), prediction_url,
state}`. -/
structure KServeDeploymentService where
  config : KServeDeploymentConfig
  state : ServiceState
  prediction_url : String
deriving DecidableEq

/-- Modelled from the spec: `is_running` of a deployment service holds exactly
when its lifecycle state is `Running` (the service class is outside the source
excerpt). -/
def KServeDeploymentService.is_running (s : KServeDeploymentService) : Bool :=
  s.state = ServiceState.Running

/-- The step environment: pipeline name, run id and step name, read from
`Environment()[STEP_ENVIRONMENT_NAME]`. -/
structure StepEnv where
  pipeline_name : String
  pipeline_run_id : String
  step_name : String
deriving DecidableEq

/-- Errors surfaced by the step.  The only error the source constructs itself
is a Python `RuntimeError` carrying a message string. -/
inductive StepError
  | RuntimeError (msg : String)
deriving DecidableEq

/-- File-system effects performed by `prepare_service_config`, in order. -/
inductive IOOp
  | makedirs (path : String)
  | copy_dir (src dst : String)
  | copy (src dst : String)
deriving DecidableEq

/-- Backend calls issued by the step, in order. -/
inductive BackendCall
  | deploy_model (cfg : KServeDeploymentConfig) (replace : Bool) (timeout : Nat)
  | start (svc : KServeDeploymentService) (timeout : Nat)
deriving DecidableEq

/-- The serving backend as an opaque collaborator: `deploy_model` on the model
deployer and `start` on a service.  Modelled from the spec:
`deploy(layout, identity, replace, timeout) -> DeploymentService | error` and
`start(service, timeout) -> DeploymentService | error`. -/
structure Backend where
  deploy_model : KServeDeploymentConfig → Bool → Nat → Except StepError KServeDeploymentService
  start : KServeDeploymentService → Nat → Except StepError KServeDeploymentService

/-- Modelled from the spec: a successful backend `start` leaves the service in
the `Running` state ("transitions to Running on successful start"). -/
def StartContract (backend : Backend) : Prop :=
  ∀ s t r, backend.start s t = Except.ok r → r.state = ServiceState.Running

/-- Modelled from the spec: `ServiceRegistry.find(identity)`, realized by the
model deployer's `find_model_server(pipeline_name, pipeline_step_name,
model_name)`; returns the services whose configuration matches the identity
key (most-recently-created first, order inherited from the registry list). -/
def find_model_server (registry : List KServeDeploymentService)
    (pipeline_name step_name model_name : String) :
    List KServeDeploymentService :=
  registry.filter fun s =>
    s.config.pipeline_name = pipeline_name &&
    s.config.pipeline_step_name = step_name &&
    s.config.model_name = model_name

/-- Embedding of the inner function `prepare_service_config` of the step.

Arguments mirror the Python closure: `fs` is the set of paths for which
`fileio.exists` answers true, `service_config` is `config.service_config`
after the step filled in the pipeline runtime information,
`ctx_output_uri` is `context.get_output_artifact_uri()`,
`model_artifact_uri` is the closed-over `model.uri`, and `model_uri` is the
function's parameter (the step passes `model.uri` for it).

The translation follows the source line by line: create `<output>/kserve`;
for predictor `"tensorflow"` copy the model directory into the `"1"`
subdirectory; for predictor `"sklearn"` rebind `model_uri` to
`model.uri + "/model"`, raise `RuntimeError` when `fileio.exists(model.uri)`
is false (note: the source tests the artifact root, not the rebound path),
else copy the rebound path to `model.joblib`; any other predictor reuses the
original model URI.  Finally return a copy of the service configuration with
only `model_uri` replaced, together with the trace of file operations. -/
def prepare_service_config (fs : List String)
    (service_config : KServeDeploymentConfig)
    (ctx_output_uri model_artifact_uri model_uri : String) :
    Except StepError (KServeDeploymentConfig × List IOOp) :=
  let served_model_uri := osPathJoin ctx_output_uri "kserve"
  let ops : List IOOp := [IOOp.makedirs served_model_uri]
  if service_config.predictor = "tensorflow" then
    Except.ok ({ service_config with model_uri := served_model_uri },
      ops ++ [IOOp.copy_dir model_uri (osPathJoin served_model_uri "1")])
  else if service_config.predictor = "sklearn" then
    let model_uri2 := osPathJoin model_artifact_uri "model"
    if ¬ fs.contains model_artifact_uri then
      Except.error (StepError.RuntimeError
        ("Expected sklearn model artifact was not found at " ++ model_uri2))
    else
      Except.ok ({ service_config with model_uri := served_model_uri },
        ops ++ [IOOp.copy model_uri2 (osPathJoin served_model_uri "model.joblib")])
  else
    Except.ok ({ service_config with model_uri := model_uri }, ops)

/-- Embedding of `kserve_model_deployer_step`.

The step fills the pipeline runtime information into the service
configuration, queries the registry for existing services under the same
(pipeline, step, model) identity, and then either reuses (and if necessary
starts) the most recent existing service when the deploy decision is negative
and such a service exists, or prepares the served layout and calls
`deploy_model` with `replace=True`.

The result carries the returned service handle together with the ordered
trace of backend calls and of file-system operations performed. -/
def kserve_model_deployer_step (backend : Backend) (deploy_decision : Bool)
    (config : KServeDeployerStepConfig) (step_env : StepEnv)
    (ctx_output_uri model_uri : String) (fs : List String)
    (registry : List KServeDeploymentService) :
    Except StepError (KServeDeploymentService × List BackendCall × List IOOp) :=
  let sc := { config.service_config with
    pipeline_name := step_env.pipeline_name
    pipeline_run_id := step_env.pipeline_run_id
    pipeline_step_name := step_env.step_name }
  let existing_services := find_model_server registry step_env.pipeline_name
    step_env.step_name config.service_config.model_name
  match deploy_decision, existing_services with
  | false, service :: _ =>
    if service.is_running then
      Except.ok (service, [], [])
    else
      match backend.start service config.timeout with
      | Except.error e => Except.error e
      | Except.ok svc => Except.ok (svc, [BackendCall.start service config.timeout], [])
  | _, _ =>
    match prepare_service_config fs sc ctx_output_uri model_uri model_uri with
    | Except.error e => Except.error e
    | Except.ok (service_config, ops) =>
      match backend.deploy_model service_config true config.timeout with
      | Except.error e => Except.error e
      | Except.ok svc =>
        Except.ok (svc, [BackendCall.deploy_model service_config true config.timeout], ops)

/-- Replace flags of the `deploy_model` calls in a step result, in order
(empty on error). -/
def deployReplaceFlags :
    Except StepError (KServeDeploymentService × List BackendCall × List IOOp) → List Bool
  | Except.error _ => []
  | Except.ok (_, calls, _) =>
    calls.filterMap fun c =>
      match c with
      | BackendCall.deploy_model _ r _ => some r
      | _ => none

/-- Whether the list of characters `s` starts with the list `p`. -/
def charsStart : List Char → List Char → Bool
  | _, [] => true
  | [], _ :: _ => false
  | a :: s, b :: p => a = b && charsStart s p

/-- Whether `p` occurs as a contiguous segment of `s`. -/
def charsHaveSeg : List Char → List Char → Bool
  | [], p => p.isEmpty
  | a :: t, p => charsStart (a :: t) p || charsHaveSeg t p

/-- Whether the string `pat` occurs as a contiguous substring of `s`. -/
def strContains (s pat : String) : Bool :=
  charsHaveSeg s.toList pat.toList

/-! Concrete fixtures used by witnesses and counterexamples. -/

/-- A service configuration with the default (custom) predictor. -/
def cfgCustom : KServeDeploymentConfig :=
  { model_uri := "orig", model_name := "m1", predictor := "custom",
    pipeline_name := "", pipeline_run_id := "", pipeline_step_name := "" }

/-- A service configuration with the tensorflow predictor. -/
def cfgTF : KServeDeploymentConfig := { cfgCustom with predictor := "tensorflow" }

/-- A service configuration with the sklearn predictor. -/
def cfgSk : KServeDeploymentConfig := { cfgCustom with predictor := "sklearn" }

/-- Step configuration around `cfgCustom`. -/
def stepCfgCustom : KServeDeployerStepConfig :=
  { service_config := cfgCustom, timeout := 300 }

/-- Step configuration around `cfgSk`. -/
def stepCfgSk : KServeDeployerStepConfig :=
  { service_config := cfgSk, timeout := 300 }

/-- A concrete step environment. -/
def envA : StepEnv :=
  { pipeline_name := "pipeline-A", pipeline_run_id := "run-1", step_name := "step-A" }

/-- A backend whose `deploy_model` and `start` always succeed with a Running
service. -/
def okBackend : Backend :=
  { deploy_model := fun cfg _ _ =>
      Except.ok { config := cfg, state := ServiceState.Running, prediction_url := "http://svc" }
    start := fun s _ => Except.ok { s with state := ServiceState.Running } }

/-- Configuration of a previously deployed service matching `envA` and model
name `m1`. -/
def cfgServedA : KServeDeploymentConfig :=
  { model_uri := "/old", model_name := "m1", predictor := "sklearn",
    pipeline_name := "pipeline-A", pipeline_run_id := "run-0",
    pipeline_step_name := "step-A" }

/-- An existing Running service under the identity of `envA`/`m1`. -/
def svcRunningA : KServeDeploymentService :=
  { config := cfgServedA, state := ServiceState.Running, prediction_url := "http://old" }

/-- An existing Stopped service under the identity of `envA`/`m1`. -/
def svcStoppedA : KServeDeploymentService :=
  { config := cfgServedA, state := ServiceState.Stopped, prediction_url := "http://old" }

/-- `svcStoppedA` after a successful start. -/
def svcStartedA : KServeDeploymentService :=
  { svcStoppedA with state := ServiceState.Running }

/-! Claim theorems. -/

/-- C1 counterexample: on the DeployNew branch (no existing service for the
identity, `deploy_decision = true`) the backend deploy is invoked with
`replace = true`, not `replace = false` as the claim states. -/
theorem C1_counterexample :
    deployReplaceFlags
      (kserve_model_deployer_step okBackend true stepCfgCustom envA "/out" "/art" [] []) =
      [true] := by rfl

/-- C1 (amended): every backend deploy call issued by the step carries
`replace = true`, on the DeployNew branch just as on the ReplaceExisting
branch — the source passes `replace=True` unconditionally. -/
theorem C1_replace_always_true (backend : Backend) (dd : Bool)
    (config : KServeDeployerStepConfig) (env : StepEnv) (out uri : String)
    (fs : List String) (reg : List KServeDeploymentService) :
    (deployReplaceFlags
      (kserve_model_deployer_step backend dd config env out uri fs reg)).all
      (fun b => b = true) = true := by
  unfold kserve_model_deployer_step
  dsimp only
  split
  · split
    · rfl
    · split <;> rfl
  · split
    · rfl
    · split <;> rfl

/-- C2: the code is wrong on this claim.  With a file system where the
artifact root `/art` exists but `/art/model` does not, the sklearn branch of
`prepare_service_config` raises no error (it tests `fileio.exists` on the
artifact root rather than on the `model` sub-path its own error message names)
and goes on to schedule a copy of the missing `/art/model` file. -/
theorem C2_code_bug :
    (["/art"].contains "/art/model") = false ∧
    prepare_service_config ["/art"] cfgSk "/out" "/art" "/art" =
      Except.ok ({ cfgSk with model_uri := "/out/kserve" },
        [IOOp.makedirs "/out/kserve",
         IOOp.copy "/art/model" "/out/kserve/model.joblib"]) := by
  exact ⟨by decide, by rfl⟩

/-- C3: with a negative deploy decision and a Running service found for the
identity, the step returns that very service unchanged and performs no backend
call and no file-system operation. -/
theorem C3_reuse_running (backend : Backend) (config : KServeDeployerStepConfig)
    (env : StepEnv) (out uri : String) (fs : List String)
    (reg : List KServeDeploymentService) (svc : KServeDeploymentService)
    (rest : List KServeDeploymentService)
    (hfind : find_model_server reg env.pipeline_name env.step_name
      config.service_config.model_name = svc :: rest)
    (hrun : svc.state = ServiceState.Running) :
    kserve_model_deployer_step backend false config env out uri fs reg =
      Except.ok (svc, [], []) := by
  unfold kserve_model_deployer_step
  rw [hfind]
  simp [KServeDeploymentService.is_running, hrun]

/-- C3 witness: a concrete registry holding a Running service for the
identity. -/
theorem C3_witness :
    kserve_model_deployer_step okBackend false stepCfgSk envA "/out" "/art" []
      [svcRunningA] = Except.ok (svcRunningA, [], []) :=
  C3_reuse_running okBackend stepCfgSk envA "/out" "/art" [] [svcRunningA]
    svcRunningA [] (by decide) (by rfl)

/-- C4: with a negative deploy decision and a non-Running service found for
the identity, the step calls backend `start` exactly once with the configured
timeout and, the backend start succeeding, returns a service in the Running
state. -/
theorem C4_start_stopped (backend : Backend) (config : KServeDeployerStepConfig)
    (env : StepEnv) (out uri : String) (fs : List String)
    (reg : List KServeDeploymentService)
    (svc svc' : KServeDeploymentService) (rest : List KServeDeploymentService)
    (hcontract : StartContract backend)
    (hfind : find_model_server reg env.pipeline_name env.step_name
      config.service_config.model_name = svc :: rest)
    (hnot : svc.state ≠ ServiceState.Running)
    (hstart : backend.start svc config.timeout = Except.ok svc') :
    kserve_model_deployer_step backend false config env out uri fs reg =
      Except.ok (svc', [BackendCall.start svc config.timeout], []) ∧
    svc'.state = ServiceState.Running := by
  refine ⟨?_, hcontract svc config.timeout svc' hstart⟩
  unfold kserve_model_deployer_step
  rw [hfind]
  simp [KServeDeploymentService.is_running, hnot, hstart]

/-- C4 witness: a concrete registry holding a Stopped service for the
identity and a backend whose start succeeds. -/
theorem C4_witness :
    (kserve_model_deployer_step okBackend false stepCfgSk envA "/out" "/art" []
      [svcStoppedA] =
      Except.ok (svcStartedA, [BackendCall.start svcStoppedA 300], []) ∧
     svcStartedA.state = ServiceState.Running) :=
  C4_start_stopped okBackend stepCfgSk envA "/out" "/art" [] [svcStoppedA]
    svcStoppedA svcStartedA []
    (by intro s t r h
        have hh : ({ s with state := ServiceState.Running } : KServeDeploymentService) = r :=
          by exact Except.ok.inj h
        rw [← hh])
    (by decide) (by decide) (by rfl)

/-- C5: when the registry lookup finds no existing service for the identity,
the step behaves identically for `deploy_decision = false` and
`deploy_decision = true`: the same result, the same backend-call trace and
the same file-system trace. -/
theorem C5_empty_registry (backend : Backend) (config : KServeDeployerStepConfig)
    (env : StepEnv) (out uri : String) (fs : List String)
    (reg : List KServeDeploymentService)
    (hfind : find_model_server reg env.pipeline_name env.step_name
      config.service_config.model_name = []) :
    kserve_model_deployer_step backend false config env out uri fs reg =
    kserve_model_deployer_step backend true config env out uri fs reg := by
  unfold kserve_model_deployer_step
  rw [hfind]

/-- C5 witness: the empty registry. -/
theorem C5_witness :
    kserve_model_deployer_step okBackend false stepCfgSk envA "/out" "/art" [] [] =
    kserve_model_deployer_step okBackend true stepCfgSk envA "/out" "/art" [] [] :=
  C5_empty_registry okBackend stepCfgSk envA "/out" "/art" [] [] (by rfl)

/-- C6: for the tensorflow predictor, whatever the input URIs, the artifact
directory is copied into the subdirectory named `1` of the served root
`<output>/kserve`, and the returned configuration's served URI is that served
root. -/
theorem C6_tensorflow (fs : List String) (sc : KServeDeploymentConfig)
    (out art uri : String) (h : sc.predictor = "tensorflow") :
    prepare_service_config fs sc out art uri =
      Except.ok ({ sc with model_uri := osPathJoin out "kserve" },
        [IOOp.makedirs (osPathJoin out "kserve"),
         IOOp.copy_dir uri (osPathJoin (osPathJoin out "kserve") "1")]) := by
  simp [prepare_service_config, h]

/-- C6 witness: a concrete tensorflow configuration with a nested input
path. -/
theorem C6_witness :
    prepare_service_config [] cfgTF "/out" "/a/b/c" "/a/b/c" =
      Except.ok ({ cfgTF with model_uri := osPathJoin "/out" "kserve" },
        [IOOp.makedirs (osPathJoin "/out" "kserve"),
         IOOp.copy_dir "/a/b/c" (osPathJoin (osPathJoin "/out" "kserve") "1")]) :=
  C6_tensorflow [] cfgTF "/out" "/a/b/c" "/a/b/c" (by rfl)

/-- C7: for any predictor other than tensorflow and sklearn, no copy is
performed (only the served directory is created) and the returned
configuration's served URI is the original model URI verbatim. -/
theorem C7_default (fs : List String) (sc : KServeDeploymentConfig)
    (out art uri : String) (h1 : sc.predictor ≠ "tensorflow")
    (h2 : sc.predictor ≠ "sklearn") :
    prepare_service_config fs sc out art uri =
      Except.ok ({ sc with model_uri := uri },
        [IOOp.makedirs (osPathJoin out "kserve")]) := by
  simp [prepare_service_config, h1, h2]

/-- C7 witness: a concrete custom-predictor configuration. -/
theorem C7_witness :
    prepare_service_config [] cfgCustom "/out" "/art" "/art" =
      Except.ok ({ cfgCustom with model_uri := "/art" },
        [IOOp.makedirs (osPathJoin "/out" "kserve")]) :=
  C7_default [] cfgCustom "/out" "/art" "/art" (by decide) (by decide)

/-- C8 counterexample: a failing deploy run (sklearn predictor, artifact root
absent) surfaces a plain `RuntimeError` whose message names only the attempted
path; it does not carry the pipeline name, the step name or the model name of
the `ServiceIdentity`. -/
theorem C8_counterexample :
    kserve_model_deployer_step okBackend true
      { service_config := { cfgSk with model_name := "model-M" }, timeout := 300 }
      envA "/out" "/art" [] [] =
      Except.error (StepError.RuntimeError
        "Expected sklearn model artifact was not found at /art/model") ∧
    strContains "Expected sklearn model artifact was not found at /art/model"
      "pipeline-A" = false ∧
    strContains "Expected sklearn model artifact was not found at /art/model"
      "step-A" = false ∧
    strContains "Expected sklearn model artifact was not found at /art/model"
      "model-M" = false := by
  exact ⟨by rfl, by decide, by decide, by decide⟩

/-- C8 (amended): the only error the step's own code constructs is the
missing-sklearn-artifact `RuntimeError`, and its message carries exactly the
attempted artifact path — not the `ServiceIdentity` (backend errors are
propagated unchanged). -/
theorem C8_error_content (fs : List String) (sc : KServeDeploymentConfig)
    (out art uri : String) (e : StepError)
    (h : prepare_service_config fs sc out art uri = Except.error e) :
    e = StepError.RuntimeError
      ("Expected sklearn model artifact was not found at " ++ osPathJoin art "model") := by
  unfold prepare_service_config at h
  split_ifs at h <;> simp_all

/-- C8 witness: the error content theorem applied at a concrete failing
input. -/
theorem C8_witness :
    StepError.RuntimeError "Expected sklearn model artifact was not found at /art/model" =
      StepError.RuntimeError
        ("Expected sklearn model artifact was not found at " ++ osPathJoin "/art" "model") :=
  C8_error_content [] cfgSk "/out" "/art" "/art"
    (StepError.RuntimeError "Expected sklearn model artifact was not found at /art/model")
    (by rfl)

/-- C10: on every successful call, `prepare_service_config` returns a copy of
the service configuration in which only the `model_uri` field is changed;
every other field equals the input configuration's, which is itself left
untouched (the source copies before assigning, embedded here as a functional
record update). -/
theorem C10_frame (fs : List String) (sc : KServeDeploymentConfig)
    (out art uri : String) (cfg : KServeDeploymentConfig) (ops : List IOOp)
    (h : prepare_service_config fs sc out art uri = Except.ok (cfg, ops)) :
    cfg = { sc with model_uri := cfg.model_uri } := by
  unfold prepare_service_config at h
  split_ifs at h <;>
    simp only [Except.ok.injEq, Prod.mk.injEq, reduceCtorEq] at h <;>
    obtain ⟨h1, h2⟩ := h <;> subst h1 <;> rfl

/-- C10 witness: the frame theorem applied at a concrete tensorflow call. -/
theorem C10_witness :
    ({ cfgTF with model_uri := "/out/kserve" } : KServeDeploymentConfig) =
      { cfgTF with
        model_uri := ({ cfgTF with model_uri := "/out/kserve" } : KServeDeploymentConfig).model_uri } :=
  C10_frame [] cfgTF "/out" "/art" "/art"
    { cfgTF with model_uri := "/out/kserve" }
    [IOOp.makedirs "/out/kserve", IOOp.copy_dir "/art" "/out/kserve/1"]
    (by rfl)
